import Mathlib

/-!
Verification of the audit-orchestration core of the spacecat-audit-worker
repository.

The audit core (`Audit` / `AuditBuilder`, the default providers and the URL
resolvers of `src/common/audit.js` and `src/common/audit-builder.js`) is not
shipped in `src/`; only its test suite (`src/unnamed/part_000`) is. Those
definitions are therefore modelled from the specification, with the test
suite pinning concrete behaviour (error-message wording, resolver outputs).
The top-level dispatcher (`src/unnamed/part_001`) is shipped, and its model
below follows that source directly.

Effectful collaborator calls (persister, message sender, post-processors,
URL resolver, runner, warning logs) are modelled by an explicit call trace
returned alongside the result, so that claims of the form "called exactly
once with X" and "not invoked" are statable.
-/

deriving instance DecidableEq for Except

/-- A JSON-ish scalar value carried in audit payloads and contexts. -/
inductive JValue where
  | str (s : String)
  | num (n : Int)
deriving DecidableEq, Repr

/-- A JSON-ish object: an association list of fields. -/
abbrev JObject := List (String × JValue)

/-- Modelled from the spec: the incoming message shape
`{ type, url?, siteId?, auditContext? }` (spec section 3); `auditContext`
defaults to the empty object when absent. -/
structure Message where
  type : String
  url : Option String := none
  siteId : Option String := none
  auditContext : JObject := []
deriving DecidableEq, Repr

/-- Modelled from the spec: the external Site entity with `id`, `baseURL`,
`organizationId` and `isLive` (spec section 3). -/
structure Site where
  id : String
  baseURL : String
  organizationId : String
  isLive : Bool
deriving DecidableEq, Repr

/-- Modelled from the spec: the external Organization entity (spec section 3). -/
structure Organization where
  id : String
  name : String
deriving DecidableEq, Repr

/-- Modelled from the spec: the runner's result
`{ auditResult, fullAuditRef }` (spec section 3). -/
structure AuditResultPayload where
  auditResult : JObject
  fullAuditRef : String
deriving DecidableEq, Repr

/-- Modelled from the spec: the persisted AuditRecord
`{ siteId, isLive, auditedAt, auditType, auditResult, fullAuditRef }`
(spec section 3). -/
structure AuditRecord where
  siteId : String
  isLive : Bool
  auditedAt : String
  auditType : String
  auditResult : JObject
  fullAuditRef : String
deriving DecidableEq, Repr

/-- Modelled from the spec: the outbound result message
`{ type, url, auditContext, auditResult }` (spec section 3). -/
structure OutboundMessage where
  type : String
  url : String
  auditContext : JObject
  auditResult : JObject
deriving DecidableEq, Repr

/-- Modelled from the spec: the data-access collaborator contract
(spec section 6): site and organization lookup tables, the Configuration
capability "is audit type X enabled for site S belonging to org O"
(an opaque predicate whose precedence rules live outside this core), and
`addAudit`. -/
structure DataAccess where
  sites : List (String × Site)
  orgs : List (String × Organization)
  auditEnabled : String → Site → Organization → Bool
  addAudit : AuditRecord → Except String Unit

/-- Modelled from the spec: the ambient context handed to every pipeline
stage: the data-access collaborator, the queue client, the
`AUDIT_RESULTS_QUEUE_URL` environment value, and the wall clock (spec
sections 5 and 6). -/
structure RunContext where
  dataAccess : DataAccess
  sqsSendMessage : String → OutboundMessage → Except String Unit
  queueUrl : String
  now : String

/-- Modelled from the spec: an HTTP response as seen by the redirect
follower — either a redirect carrying a `Location` header or a terminal
success (spec section 4.7). -/
inductive HttpResponse where
  | redirect (location : String)
  | ok
deriving DecidableEq, Repr

/-- Modelled from the spec: the site identifier key of a message,
`message.siteId ?? message.url` (spec section 4.2 step 1). -/
def siteKey (m : Message) : String :=
  match m.siteId with
  | some s => s
  | none => m.url.getD "undefined"

/-- Strip a prefix from a list of characters, returning the remainder when
the prefix matches. -/
def stripPrefixChars : List Char → List Char → Option (List Char)
  | [], cs => some cs
  | _ :: _, [] => none
  | p :: ps, c :: cs => if p = c then stripPrefixChars ps cs else none

/-- Whether a URL string already carries an HTTP scheme. -/
def hasSchema (u : String) : Bool :=
  (stripPrefixChars "http://".toList u.toList).isSome ||
  (stripPrefixChars "https://".toList u.toList).isSome

/-- Modelled from the spec: prefix a bare host with a URL scheme before it
is handed to the runner or placed in the outbound message (spec sections
4.2 step 4 and 3). -/
def prependSchema (u : String) : String :=
  if hasSchema u then u else "https://" ++ u

/-- Strip a leading URL scheme from a URL string. -/
def stripSchema (u : String) : String :=
  match stripPrefixChars "https://".toList u.toList with
  | some rest => rest.asString
  | none =>
    match stripPrefixChars "http://".toList u.toList with
    | some rest => rest.asString
    | none => u

/-- The host component of a URL: scheme and path stripped. -/
def getHost (u : String) : String :=
  ((stripSchema u).toList.takeWhile (fun c => c != '/')).asString

/-- Modelled from the spec: follow HTTP redirect responses from a starting
URL to their final destination, with explicit fuel bounding the chain
length (spec section 4.7). -/
def followRedirects (http : String → HttpResponse) : Nat → String → Except String String
  | 0, url =>
    match http url with
    | .ok => .ok url
    | .redirect _ => .error "too many redirects"
  | n + 1, url =>
    match http url with
    | .ok => .ok url
    | .redirect loc => followRedirects http n loc

/-- Modelled from the spec: `defaultUrlResolver` (absent from `src/`,
spec section 4.7) — HTTP GET against the site's base URL, follow chained
redirects, return the host component only of the final resolved URL. -/
def defaultUrlResolver (http : String → HttpResponse) (fuel : Nat) (site : Site) :
    Except String String :=
  (followRedirects http fuel site.baseURL).map getHost

/-- Modelled from the spec: `noopUrlResolver` (absent from `src/`, spec
section 4.8) — no network access; per the test suite
(`src/unnamed/part_000` lines 155-158) it returns the site's base URL
itself, scheme included. -/
def noopUrlResolver (site : Site) : Except String String :=
  .ok site.baseURL

/-- Modelled from the spec: `defaultSiteProvider` (absent from `src/`,
spec section 4.3) — data-access lookup, NotFound error
`Site with id <id> not found` when absent. -/
def defaultSiteProvider (siteId : String) (ctx : RunContext) : Except String Site :=
  match ctx.dataAccess.sites.lookup siteId with
  | some site => .ok site
  | none => .error ("Site with id " ++ siteId ++ " not found")

/-- Modelled from the spec: `defaultOrgProvider` (absent from `src/`,
spec section 4.4) — symmetric to the site provider, message
`Org with id <id> not found`. -/
def defaultOrgProvider (orgId : String) (ctx : RunContext) : Except String Organization :=
  match ctx.dataAccess.orgs.lookup orgId with
  | some org => .ok org
  | none => .error ("Org with id " ++ orgId ++ " not found")

/-- Modelled from the spec: `defaultPersister` (absent from `src/`, spec
section 4.5) — delegates directly to data-access `addAudit`. -/
def defaultPersister (record : AuditRecord) (ctx : RunContext) : Except String Unit :=
  ctx.dataAccess.addAudit record

/-- Modelled from the spec: `defaultMessageSender` (absent from `src/`,
spec section 4.6) — sends via the queue client using the queue URL from
the environment. -/
def defaultMessageSender (msg : OutboundMessage) (ctx : RunContext) : Except String Unit :=
  ctx.sqsSendMessage ctx.queueUrl msg

/-- Modelled from the spec: the uniform wrapped audit failure message
`<type> audit failed for site <key>. Reason: <original message>`
(spec section 4.2), as also pinned by the test suite
(`src/unnamed/part_000` line 173). -/
def wrapAuditError (auditType key reason : String) : String :=
  auditType ++ " audit failed for site " ++ key ++ ". Reason: " ++ reason

/-- Modelled from the spec: the disabled-audit warning line
`<type> audits disabled for site <siteId>, skipping...` (spec section 4.2
step 2), as pinned by the test suite (`src/unnamed/part_000` line 210). -/
def disabledWarning (auditType key : String) : String :=
  auditType ++ " audits disabled for site " ++ key ++ ", skipping..."

/-- Modelled from the spec: the assembled `Audit` runtime object holding
all resolved providers (spec section 2 component 5). -/
structure Audit where
  siteProvider : String → RunContext → Except String Site
  orgProvider : String → RunContext → Except String Organization
  urlResolver : Site → Except String String
  runner : String → RunContext → Except String AuditResultPayload
  persister : AuditRecord → RunContext → Except String Unit
  messageSender : OutboundMessage → RunContext → Except String Unit
  postProcessors : List (String → AuditRecord → Except String Unit)

/-- The call trace of one `Audit.run` invocation: which collaborators were
invoked, with which arguments, in order, plus the warning log lines. -/
structure RunTrace where
  resolverCalls : List Site := []
  runnerCalls : List String := []
  persisterCalls : List AuditRecord := []
  senderCalls : List OutboundMessage := []
  postProcessorCalls : List (Nat × String × AuditRecord) := []
  warnings : List String := []
deriving DecidableEq, Repr

/-- Modelled from the spec: the persisted AuditRecord built at step 5 of
the pipeline, with `auditedAt` the current wall-clock time (spec sections
3 and 4.2 step 5). -/
def mkAuditRecord (m : Message) (site : Site) (ctx : RunContext)
    (res : AuditResultPayload) : AuditRecord :=
  { siteId := site.id, isLive := site.isLive, auditedAt := ctx.now,
    auditType := m.type, auditResult := res.auditResult,
    fullAuditRef := res.fullAuditRef }

/-- Modelled from the spec: the outbound message built at step 6 — the
caller-supplied `auditContext` carried forward verbatim plus exactly the
two keys `finalUrl` and `fullAuditRef` (spec sections 3 and 4.2 step 6). -/
def mkOutboundMessage (m : Message) (finalUrl : String)
    (res : AuditResultPayload) : OutboundMessage :=
  { type := m.type, url := prependSchema finalUrl,
    auditContext := m.auditContext ++
      [("finalUrl", JValue.str finalUrl), ("fullAuditRef", JValue.str res.fullAuditRef)],
    auditResult := res.auditResult }

/-- Modelled from the spec: invoke the configured post-processors in list
order, sequentially, each with `(finalUrl, auditRecord)`; a failure aborts
the remainder at its position and propagates unwrapped (spec sections 4.2
step 7 and 5). Returns the indexed calls made and the overall outcome. -/
def runPostProcessors (ps : List (String → AuditRecord → Except String Unit))
    (idx : Nat) (finalUrl : String) (record : AuditRecord) :
    List (Nat × String × AuditRecord) × Except String Unit :=
  match ps with
  | [] => ([], .ok ())
  | p :: rest =>
    match p finalUrl record with
    | .error e => ([(idx, finalUrl, record)], .error e)
    | .ok _ =>
      let r := runPostProcessors rest (idx + 1) finalUrl record
      ((idx, finalUrl, record) :: r.1, r.2)

/-- Modelled from the spec: `Audit.run(message, context)` (absent from
`src/`, spec section 4.2) — the strictly sequential pipeline: resolve site
and org, check enablement (short-circuiting with a warning when disabled),
resolve URL, run the runner on the scheme-prefixed host, persist, publish,
post-process, return status 200. Failures of steps 1/3/4/5/6 are wrapped
into the uniform audit failure message; post-processor failures propagate
unwrapped. The first component is the collaborator call trace, the second
the HTTP-style status or the rejection message. -/
def Audit.run (a : Audit) (m : Message) (ctx : RunContext) :
    RunTrace × Except String Nat :=
  match a.siteProvider (siteKey m) ctx with
  | .error e => ({}, .error (wrapAuditError m.type (siteKey m) e))
  | .ok site =>
    match a.orgProvider site.organizationId ctx with
    | .error e => ({}, .error (wrapAuditError m.type (siteKey m) e))
    | .ok org =>
      if ctx.dataAccess.auditEnabled m.type site org then
        match a.urlResolver site with
        | .error e =>
          ({ resolverCalls := [site] }, .error (wrapAuditError m.type (siteKey m) e))
        | .ok finalUrl =>
          match a.runner (prependSchema finalUrl) ctx with
          | .error e =>
            ({ resolverCalls := [site], runnerCalls := [prependSchema finalUrl] },
             .error (wrapAuditError m.type (siteKey m) e))
          | .ok res =>
            let record := mkAuditRecord m site ctx res
            match a.persister record ctx with
            | .error e =>
              ({ resolverCalls := [site], runnerCalls := [prependSchema finalUrl],
                 persisterCalls := [record] },
               .error (wrapAuditError m.type (siteKey m) e))
            | .ok _ =>
              let outMessage := mkOutboundMessage m finalUrl res
              match a.messageSender outMessage ctx with
              | .error e =>
                ({ resolverCalls := [site], runnerCalls := [prependSchema finalUrl],
                   persisterCalls := [record], senderCalls := [outMessage] },
                 .error (wrapAuditError m.type (siteKey m) e))
              | .ok _ =>
                let pp := runPostProcessors a.postProcessors 0 finalUrl record
                ({ resolverCalls := [site], runnerCalls := [prependSchema finalUrl],
                   persisterCalls := [record], senderCalls := [outMessage],
                   postProcessorCalls := pp.1 },
                 match pp.2 with
                 | .error e => .error e
                 | .ok _ => .ok 200)
      else
        ({ warnings := [disabledWarning m.type (siteKey m)] }, .ok 200)

/-- Modelled from the spec: the `AuditBuilder` configuration record with
one optional slot per collaborator (spec section 4.1). -/
structure AuditBuilder where
  siteProvider : Option (String → RunContext → Except String Site) := none
  orgProvider : Option (String → RunContext → Except String Organization) := none
  urlResolver : Option (Site → Except String String) := none
  runner : Option (String → RunContext → Except String AuditResultPayload) := none
  persister : Option (AuditRecord → RunContext → Except String Unit) := none
  messageSender : Option (OutboundMessage → RunContext → Except String Unit) := none
  postProcessors : List (String → AuditRecord → Except String Unit) := []

/-- Modelled from the spec: `withSiteProvider` stores the override. -/
def AuditBuilder.withSiteProvider (b : AuditBuilder)
    (f : String → RunContext → Except String Site) : AuditBuilder :=
  { b with siteProvider := some f }

/-- Modelled from the spec: `withOrgProvider` stores the override. -/
def AuditBuilder.withOrgProvider (b : AuditBuilder)
    (f : String → RunContext → Except String Organization) : AuditBuilder :=
  { b with orgProvider := some f }

/-- Modelled from the spec: `withUrlResolver` stores the override. -/
def AuditBuilder.withUrlResolver (b : AuditBuilder)
    (f : Site → Except String String) : AuditBuilder :=
  { b with urlResolver := some f }

/-- Modelled from the spec: `withRunner` stores the override. -/
def AuditBuilder.withRunner (b : AuditBuilder)
    (f : String → RunContext → Except String AuditResultPayload) : AuditBuilder :=
  { b with runner := some f }

/-- Modelled from the spec: `withPersister` stores the override. -/
def AuditBuilder.withPersister (b : AuditBuilder)
    (f : AuditRecord → RunContext → Except String Unit) : AuditBuilder :=
  { b with persister := some f }

/-- Modelled from the spec: `withMessageSender` stores the override. -/
def AuditBuilder.withMessageSender (b : AuditBuilder)
    (f : OutboundMessage → RunContext → Except String Unit) : AuditBuilder :=
  { b with messageSender := some f }

/-- Modelled from the spec: `withPostProcessors` stores the list. -/
def AuditBuilder.withPostProcessors (b : AuditBuilder)
    (ps : List (String → AuditRecord → Except String Unit)) : AuditBuilder :=
  { b with postProcessors := ps }

/-- Modelled from the spec: `AuditBuilder.build()` (absent from `src/`,
spec section 4.1) — fails when no runner was set, with the validation
message pinned by the test suite (`src/unnamed/part_000` line 163); unset
slots default to the default implementations (the default URL resolver
needs the ambient HTTP world, passed here explicitly). -/
def AuditBuilder.build (b : AuditBuilder) (http : String → HttpResponse)
    (fuel : Nat) : Except String Audit :=
  match b.runner with
  | none => .error "\"runner\" must be a function"
  | some r =>
    .ok { siteProvider := b.siteProvider.getD defaultSiteProvider,
          orgProvider := b.orgProvider.getD defaultOrgProvider,
          urlResolver := b.urlResolver.getD (defaultUrlResolver http fuel),
          runner := r,
          persister := b.persister.getD defaultPersister,
          messageSender := b.messageSender.getD defaultMessageSender,
          postProcessors := b.postProcessors }

def exSite : Site :=
  { id := "site-uuid", baseURL := "https://space.cat",
    organizationId := "org-uuid", isLive := true }

def exOrg : Organization := { id := "org-uuid", name := "some-org" }

def exMessage : Message :=
  { type := "dummy", url := some "site-id",
    auditContext := [("someField", JValue.num 431)] }

def exDataAccess : DataAccess :=
  { sites := [("site-id", exSite)], orgs := [("org-uuid", exOrg)],
    auditEnabled := fun _ _ _ => true, addAudit := fun _ => .ok () }

def exCtx : RunContext :=
  { dataAccess := exDataAccess, sqsSendMessage := fun _ _ => .ok (),
    queueUrl := "some-queue-url", now := "2023-03-12T15:24:51.231Z" }

def exCtxDisabled : RunContext :=
  { exCtx with dataAccess := { exDataAccess with auditEnabled := fun _ _ _ => false } }

def exCtxEmpty : RunContext :=
  { exCtx with dataAccess := { exDataAccess with sites := [], orgs := [] } }

def exPayload : AuditResultPayload :=
  { auditResult := [("metric", JValue.num 42)], fullAuditRef := "hebele" }

def exAuditDefault : Audit :=
  { siteProvider := defaultSiteProvider, orgProvider := defaultOrgProvider,
    urlResolver := noopUrlResolver, runner := fun _ _ => .ok exPayload,
    persister := defaultPersister, messageSender := defaultMessageSender,
    postProcessors := [] }

def exAuditOk : Audit :=
  { siteProvider := fun _ _ => .ok exSite,
    orgProvider := fun _ _ => .ok exOrg,
    urlResolver := fun _ => .ok "space.cat",
    runner := fun _ _ => .ok exPayload,
    persister := fun _ _ => .ok (),
    messageSender := fun _ _ => .ok (),
    postProcessors := [fun _ _ => .ok (), fun _ _ => .ok ()] }

def exRecord : AuditRecord :=
  { siteId := "site-uuid", isLive := true, auditedAt := "2023-03-12T15:24:51.231Z",
    auditType := "dummy", auditResult := [("metric", JValue.num 42)],
    fullAuditRef := "hebele" }

/-- C1: for every message and every failure raised during site resolution,
org resolution, URL resolution, runner execution, or persistence,
`Audit.run` rejects with the single uniform error
`<type> audit failed for site <key>. Reason: <original message>`, where the
key is the message's site identifier. -/
theorem run_wraps_stage_failures (a : Audit) (m : Message) (ctx : RunContext) :
    (∀ e, a.siteProvider (siteKey m) ctx = .error e →
      (a.run m ctx).2 = .error (wrapAuditError m.type (siteKey m) e)) ∧
    (∀ site e, a.siteProvider (siteKey m) ctx = .ok site →
      a.orgProvider site.organizationId ctx = .error e →
      (a.run m ctx).2 = .error (wrapAuditError m.type (siteKey m) e)) ∧
    (∀ site org e, a.siteProvider (siteKey m) ctx = .ok site →
      a.orgProvider site.organizationId ctx = .ok org →
      ctx.dataAccess.auditEnabled m.type site org = true →
      a.urlResolver site = .error e →
      (a.run m ctx).2 = .error (wrapAuditError m.type (siteKey m) e)) ∧
    (∀ site org finalUrl e, a.siteProvider (siteKey m) ctx = .ok site →
      a.orgProvider site.organizationId ctx = .ok org →
      ctx.dataAccess.auditEnabled m.type site org = true →
      a.urlResolver site = .ok finalUrl →
      a.runner (prependSchema finalUrl) ctx = .error e →
      (a.run m ctx).2 = .error (wrapAuditError m.type (siteKey m) e)) ∧
    (∀ site org finalUrl res e, a.siteProvider (siteKey m) ctx = .ok site →
      a.orgProvider site.organizationId ctx = .ok org →
      ctx.dataAccess.auditEnabled m.type site org = true →
      a.urlResolver site = .ok finalUrl →
      a.runner (prependSchema finalUrl) ctx = .ok res →
      a.persister (mkAuditRecord m site ctx res) ctx = .error e →
      (a.run m ctx).2 = .error (wrapAuditError m.type (siteKey m) e)) := by
  refine ⟨fun e h1 => ?_, fun site e h1 h2 => ?_, fun site org e h1 h2 h3 h4 => ?_,
    fun site org finalUrl e h1 h2 h3 h4 h5 => ?_,
    fun site org finalUrl res e h1 h2 h3 h4 h5 h6 => ?_⟩ <;>
  simp [Audit.run, h1]
  · simp [h2]
  · simp [h2, h3, h4]
  · simp [h2, h3, h4, h5]
  · simp [h2, h3, h4, h5, h6]

/-- C1 witness: with the default site provider over an empty data-access
store, the run on the test message rejects with the wrapped
site-not-found failure. -/
theorem run_wraps_stage_failures_witness :
    (exAuditDefault.run exMessage exCtxEmpty).2 =
      .error "dummy audit failed for site site-id. Reason: Site with id site-id not found" := by
  have h := (run_wraps_stage_failures exAuditDefault exMessage exCtxEmpty).1
    ("Site with id " ++ "site-id" ++ " not found") rfl
  exact h.trans (congrArg Except.error (by decide))

/-- C2: when the audit type is disabled for the resolved site or its
organization per the Configuration capability, `Audit.run` returns status
200, invokes neither URL resolver nor runner nor persister nor message
sender nor any post-processor, and logs exactly one warning
`<type> audits disabled for site <siteId>, skipping...`; this is not an
error path. -/
theorem run_skips_when_disabled (a : Audit) (m : Message) (ctx : RunContext)
    (site : Site) (org : Organization)
    (hs : a.siteProvider (siteKey m) ctx = .ok site)
    (ho : a.orgProvider site.organizationId ctx = .ok org)
    (hd : ctx.dataAccess.auditEnabled m.type site org = false) :
    a.run m ctx = ({ warnings := [disabledWarning m.type (siteKey m)] }, .ok 200) := by
  simp [Audit.run, hs, ho, hd]

/-- C2 witness: the disabled configuration short-circuits the run with a
200 response, the empty call trace and the single warning line. -/
theorem run_skips_when_disabled_witness :
    exAuditDefault.run exMessage exCtxDisabled =
      ({ warnings := ["dummy audits disabled for site site-id, skipping..."] }, .ok 200) := by
  have h := run_skips_when_disabled exAuditDefault exMessage exCtxDisabled exSite exOrg
    rfl rfl rfl
  exact h.trans (by decide)

/-- When every post-processor succeeds on `(u, r)`, they are all invoked,
each exactly once, in list order, and the overall outcome is success. -/
theorem runPostProcessors_all_ok (ps : List (String → AuditRecord → Except String Unit))
    (idx : Nat) (u : String) (r : AuditRecord)
    (h : ∀ p ∈ ps, p u r = .ok ()) :
    runPostProcessors ps idx u r =
      ((List.range ps.length).map (fun i => (idx + i, u, r)), .ok ()) := by
  induction ps generalizing idx with
  | nil => rfl
  | cons p rest ih =>
    have hp : p u r = .ok () := h p (List.mem_cons_self p rest)
    have hrest : ∀ q ∈ rest, q u r = .ok () := fun q hq => h q (List.mem_cons_of_mem p hq)
    calc runPostProcessors (p :: rest) idx u r
        = ((idx, u, r) :: (runPostProcessors rest (idx + 1) u r).1,
           (runPostProcessors rest (idx + 1) u r).2) := by
          simp [runPostProcessors, hp]
      _ = ((idx, u, r) :: (List.range rest.length).map (fun i => (idx + 1 + i, u, r)),
           .ok ()) := by
          rw [ih (idx + 1) hrest]
      _ = ((List.range (p :: rest).length).map (fun i => (idx + i, u, r)), .ok ()) := by
          rw [List.length_cons, List.range_succ_eq_map, List.map_cons, List.map_map]
          refine congrArg (fun l => (l, Except.ok ())) ?_
          congr 1
          refine List.map_congr_left fun i _ => ?_
          simp only [Function.comp_apply, Prod.mk.injEq, and_true]
          omega

/-- C3: on a successful run of an enabled audit, the persister is called
exactly once with the record
`{siteId, isLive, auditedAt := now, auditType := message.type, auditResult,
fullAuditRef}`, the message sender exactly once with the outbound message
whose `url` is the scheme-prefixed resolved host and whose `auditContext`
is the caller context verbatim plus exactly `finalUrl` and `fullAuditRef`,
and every configured post-processor exactly once with
`(finalUrl, auditRecord)`, in registration order, and run returns 200. -/
theorem run_success_effects (a : Audit) (m : Message) (ctx : RunContext)
    (site : Site) (org : Organization) (finalUrl : String) (res : AuditResultPayload)
    (hs : a.siteProvider (siteKey m) ctx = .ok site)
    (ho : a.orgProvider site.organizationId ctx = .ok org)
    (he : ctx.dataAccess.auditEnabled m.type site org = true)
    (hu : a.urlResolver site = .ok finalUrl)
    (hr : a.runner (prependSchema finalUrl) ctx = .ok res)
    (hp : a.persister (mkAuditRecord m site ctx res) ctx = .ok ())
    (hsend : a.messageSender (mkOutboundMessage m finalUrl res) ctx = .ok ())
    (hpp : ∀ p ∈ a.postProcessors, p finalUrl (mkAuditRecord m site ctx res) = .ok ()) :
    (a.run m ctx).2 = .ok 200 ∧
    (a.run m ctx).1.persisterCalls =
      [{ siteId := site.id, isLive := site.isLive, auditedAt := ctx.now,
         auditType := m.type, auditResult := res.auditResult,
         fullAuditRef := res.fullAuditRef }] ∧
    (a.run m ctx).1.senderCalls =
      [{ type := m.type, url := prependSchema finalUrl,
         auditContext := m.auditContext ++
           [("finalUrl", JValue.str finalUrl),
            ("fullAuditRef", JValue.str res.fullAuditRef)],
         auditResult := res.auditResult }] ∧
    (a.run m ctx).1.postProcessorCalls =
      (List.range a.postProcessors.length).map
        (fun i => (i, finalUrl, mkAuditRecord m site ctx res)) := by
  have hppr := runPostProcessors_all_ok a.postProcessors 0 finalUrl
    (mkAuditRecord m site ctx res) hpp
  have hrun : a.run m ctx =
      ({ resolverCalls := [site], runnerCalls := [prependSchema finalUrl],
         persisterCalls := [mkAuditRecord m site ctx res],
         senderCalls := [mkOutboundMessage m finalUrl res],
         postProcessorCalls := (List.range a.postProcessors.length).map
           (fun i => (0 + i, finalUrl, mkAuditRecord m site ctx res)) }, .ok 200) := by
    simp [Audit.run, hs, ho, he, hu, hr, hp, hsend, hppr]
  rw [hrun]
  refine ⟨rfl, ?_, ?_, ?_⟩ <;> simp [mkAuditRecord, mkOutboundMessage]

/-- C3 witness: the end-to-end success scenario of the test suite — the
persisted record, the outbound message (with `https://space.cat` and the
merged context) and both post-processor invocations, in order. -/
theorem run_success_effects_witness :
    (exAuditOk.run exMessage exCtx).2 = .ok 200 ∧
    (exAuditOk.run exMessage exCtx).1.persisterCalls = [exRecord] ∧
    (exAuditOk.run exMessage exCtx).1.senderCalls =
      [{ type := "dummy", url := "https://space.cat",
         auditContext := [("someField", JValue.num 431),
                          ("finalUrl", JValue.str "space.cat"),
                          ("fullAuditRef", JValue.str "hebele")],
         auditResult := [("metric", JValue.num 42)] }] ∧
    (exAuditOk.run exMessage exCtx).1.postProcessorCalls =
      [(0, "space.cat", exRecord), (1, "space.cat", exRecord)] := by
  have hpp : ∀ p ∈ exAuditOk.postProcessors,
      p "space.cat" (mkAuditRecord exMessage exSite exCtx exPayload) = .ok () := by
    intro p hp
    simp only [exAuditOk, List.mem_cons, List.not_mem_nil, or_false] at hp
    rcases hp with h1 | h1 <;> subst h1 <;> rfl
  have h := run_success_effects exAuditOk exMessage exCtx exSite exOrg "space.cat" exPayload
    rfl rfl rfl rfl rfl rfl rfl hpp
  exact ⟨h.1, h.2.1.trans (by decide), h.2.2.1.trans (by decide), h.2.2.2.trans (by decide)⟩

/-- C4 counterexample: the validation error raised by `build()` without a
runner carries quotes around the word runner — the message is
`"runner" must be a function`, not `runner must be a function` as the
claim states (the test suite pins the quoted form). -/
theorem build_error_message_has_quotes :
    ({} : AuditBuilder).build (fun _ => HttpResponse.ok) 20 =
      .error "\"runner\" must be a function" ∧
    ({} : AuditBuilder).build (fun _ => HttpResponse.ok) 20 ≠
      .error "runner must be a function" := by
  refine ⟨rfl, fun h => ?_⟩
  have h2 := (show ({} : AuditBuilder).build (fun _ => HttpResponse.ok) 20 =
      Except.error "\"runner\" must be a function" from rfl).symm.trans h
  exact absurd (Except.error.inj h2) (by decide)

/-- C4 amended: calling `build()` on a builder with no runner set fails —
synchronously, the model being a pure function — with the validation error
whose message is `"runner" must be a function` (quotes included). -/
theorem build_requires_runner (b : AuditBuilder) (http : String → HttpResponse)
    (fuel : Nat) (h : b.runner = none) :
    b.build http fuel = .error "\"runner\" must be a function" := by
  simp [AuditBuilder.build, h]

/-- C4 witness: the fresh builder has no runner and `build()` fails with
the validation message. -/
theorem build_requires_runner_witness :
    ({} : AuditBuilder).build (fun _ => HttpResponse.ok) 20 =
      .error "\"runner\" must be a function" :=
  build_requires_runner {} (fun _ => HttpResponse.ok) 20 rfl

/-- C5: for every id absent from the data-access collaborator the default
site provider rejects with `Site with id <id> not found` and the default
org provider with `Org with id <id> not found`; when the entity exists,
each provider returns it. -/
theorem default_providers_lookup (ctx : RunContext) (id : String) :
    (ctx.dataAccess.sites.lookup id = none →
      defaultSiteProvider id ctx = .error ("Site with id " ++ id ++ " not found")) ∧
    (∀ site, ctx.dataAccess.sites.lookup id = some site →
      defaultSiteProvider id ctx = .ok site) ∧
    (ctx.dataAccess.orgs.lookup id = none →
      defaultOrgProvider id ctx = .error ("Org with id " ++ id ++ " not found")) ∧
    (∀ org, ctx.dataAccess.orgs.lookup id = some org →
      defaultOrgProvider id ctx = .ok org) := by
  refine ⟨fun h => ?_, fun site h => ?_, fun h => ?_, fun org h => ?_⟩ <;>
    simp [defaultSiteProvider, defaultOrgProvider, h]

/-- C5 witness: a missing and a present site id, and a missing and a
present org id, against the example data-access store. -/
theorem default_providers_lookup_witness :
    defaultSiteProvider "missing" exCtx = .error "Site with id missing not found" ∧
    defaultSiteProvider "site-id" exCtx = .ok exSite ∧
    defaultOrgProvider "nope" exCtx = .error "Org with id nope not found" ∧
    defaultOrgProvider "org-uuid" exCtx = .ok exOrg := by
  refine ⟨?_, ?_, ?_, ?_⟩
  · exact ((default_providers_lookup exCtx "missing").1 rfl).trans
      (congrArg Except.error (by decide))
  · exact (default_providers_lookup exCtx "site-id").2.1 exSite rfl
  · exact ((default_providers_lookup exCtx "nope").2.2.1 rfl).trans
      (congrArg Except.error (by decide))
  · exact (default_providers_lookup exCtx "org-uuid").2.2.2 exOrg rfl

/-- A finite chain of redirects under the HTTP world `http`, from a start
URL to a final URL answering without a `Location` header, counting the
number of redirect hops. -/
inductive RedirectChain (http : String → HttpResponse) : String → String → Nat → Prop where
  | done (u : String) : http u = .ok → RedirectChain http u u 0
  | step (u v w : String) (n : Nat) : http u = .redirect v →
      RedirectChain http v w n → RedirectChain http u w (n + 1)

/-- Following redirects with enough fuel lands on the chain's final URL. -/
theorem followRedirects_of_chain (http : String → HttpResponse) (u w : String)
    (n fuel : Nat) (hc : RedirectChain http u w n) (hf : n ≤ fuel) :
    followRedirects http fuel u = .ok w := by
  induction hc generalizing fuel with
  | done u hu => cases fuel <;> simp [followRedirects, hu]
  | step u v w n hu hc ih =>
    cases fuel with
    | zero => omega
    | succ f =>
      simp only [followRedirects, hu]
      exact ih f (by omega)

/-- C6: for every site whose base URL reaches a final URL through any
number of chained redirect responses (within the resolver's fuel), the
default URL resolver returns only the host component — scheme and path
stripped — of that final URL. -/
theorem defaultUrlResolver_host_of_final (http : String → HttpResponse) (fuel : Nat)
    (site : Site) (finalUrl : String) (n : Nat)
    (hc : RedirectChain http site.baseURL finalUrl n) (hf : n ≤ fuel) :
    defaultUrlResolver http fuel site = .ok (getHost finalUrl) := by
  simp [defaultUrlResolver, Except.map,
    followRedirects_of_chain http site.baseURL finalUrl n fuel hc hf]

/-- C6 witness: `https://space.cat` redirecting once to
`https://www.space.cat/` resolves to the string `www.space.cat`. -/
theorem defaultUrlResolver_host_of_final_witness :
    defaultUrlResolver
      (fun u => if u = "https://space.cat"
                then .redirect "https://www.space.cat/" else .ok)
      1 exSite = .ok "www.space.cat" := by
  have hc : RedirectChain
      (fun u => if u = "https://space.cat"
                then .redirect "https://www.space.cat/" else .ok)
      "https://space.cat" "https://www.space.cat/" 1 :=
    RedirectChain.step _ _ _ _ (by decide)
      (RedirectChain.done _ (by decide))
  have h := defaultUrlResolver_host_of_final
    (fun u => if u = "https://space.cat"
              then .redirect "https://www.space.cat/" else .ok)
    1 exSite "https://www.space.cat/" 1 hc (by decide)
  exact h.trans (congrArg Except.ok (by decide))

/-- C7 counterexample: on the test site with base URL `https://space.cat`
the no-op resolver returns the full base URL, scheme included — not the
bare host `space.cat` that the claim (host only, as for the default
resolver) demands. -/
theorem noopUrlResolver_keeps_schema :
    noopUrlResolver exSite = .ok "https://space.cat" ∧
    getHost exSite.baseURL = "space.cat" ∧
    noopUrlResolver exSite ≠ .ok "space.cat" := by
  refine ⟨rfl, by decide, fun h => ?_⟩
  have h2 := (show noopUrlResolver exSite = Except.ok "https://space.cat" from rfl).symm.trans h
  exact absurd (Except.ok.inj h2) (by decide)

/-- C7 amended: the no-op URL resolver returns the site's base URL
unchanged — scheme included, not reduced to the host — and, taking no HTTP
world at all, performs zero network calls. -/
theorem noopUrlResolver_returns_baseURL (site : Site) :
    noopUrlResolver site = .ok site.baseURL := rfl

/-- C8: a message carrying the site identifier in `siteId` produces
exactly the same run outcome — same resolved site, identical
AuditRecord/OutboundMessage pair, identical trace and response — as one
carrying it in `url`, all other fields equal; and `siteId` takes
precedence over any `url` value as the key passed to the site provider. -/
theorem run_siteId_url_equivalent (a : Audit) (ctx : RunContext) (t k : String)
    (u : Option String) (actx : JObject) :
    a.run { type := t, url := u, siteId := some k, auditContext := actx } ctx =
    a.run { type := t, url := some k, siteId := none, auditContext := actx } ctx := rfl

/-- From source `src/unnamed/part_001`: a thrown or rejected error as the
dispatcher's catch block sees it — a message and an optional numeric
`statusCode` field. -/
structure JsError where
  message : String
  statusCode : Option Nat := none
deriving DecidableEq, Repr

/-- From source `src/unnamed/part_001`: the HTTP-style response produced
by the dispatcher — a status plus the optional `x-error` header. -/
structure WebResponse where
  status : Nat
  xError : Option String := none
deriving DecidableEq, Repr

/-- From source `src/unnamed/part_001`: the outcome of one dispatcher
invocation — the response and which handler (by type string) was invoked,
if any. -/
structure DispatchOutcome where
  response : WebResponse
  invokedHandler : Option String
deriving DecidableEq, Repr

/-- From source `src/unnamed/part_001` lines 34-48: the keys of the
`HANDLERS` table (the JS numeric key `404` is the string key `"404"`). -/
def registeredAuditTypes : List String :=
  ["apex", "cwv", "lhs-mobile", "lhs-desktop", "404", "sitemap", "canonical",
   "broken-backlinks", "experimentation", "conversion",
   "experimentation-ess-daily", "experimentation-ess-all", "costs"]

/-- From source `src/unnamed/part_001` line 86: `e.statusCode || 500` —
the JS `||` falls through to 500 when `statusCode` is absent or `0`
(falsy). -/
def statusOr500 (c : Option Nat) : Nat :=
  match c with
  | none => 500
  | some c => if c = 0 then 500 else c

/-- From source `src/unnamed/part_001` lines 62-92: the top-level
dispatcher `run(message, context)`. It looks the message type up in the
handler table, answering 404 without invoking anything when the type is
unregistered; otherwise it invokes the handler and passes its response
through, catching any thrown error and answering `statusCode || 500` with
the header `x-error: internal server error`. A handler is modelled by the
outcome it produces on the given message. -/
def dispatcherRun (handlers : List (String × (Message → Except JsError WebResponse)))
    (m : Message) : DispatchOutcome :=
  match handlers.lookup m.type with
  | none => { response := { status := 404 }, invokedHandler := none }
  | some h =>
    { invokedHandler := some m.type,
      response :=
        match h m with
        | .ok r => r
        | .error e =>
          { status := statusOr500 e.statusCode,
            xError := some "internal server error" } }

/-- A key absent from a list of keys is absent from the association list
tabulating a function over those keys. -/
theorem lookup_tabulate_eq_none {β : Type} (f : String → β) (l : List String)
    (k : String) (hk : k ∉ l) :
    (l.map (fun t => (t, f t))).lookup k = none := by
  induction l with
  | nil => rfl
  | cons a as ih =>
    have hka : ¬ (k = a) := fun h => hk (h ▸ List.mem_cons_self a as)
    have h2 : k ∉ as := fun h => hk (List.mem_cons_of_mem a h)
    have hbeq : (k == a) = false := beq_eq_false_iff_ne.mpr hka
    simp [List.lookup, hbeq, ih h2]

/-- C9: for every message whose type string matches no registered audit
handler, the top-level dispatcher returns a response with status 404
without invoking any handler, whatever the handlers' behaviours are. -/
theorem dispatcher_unknown_type_404
    (behaviors : String → Message → Except JsError WebResponse) (m : Message)
    (hm : m.type ∉ registeredAuditTypes) :
    dispatcherRun (registeredAuditTypes.map (fun t => (t, behaviors t))) m =
      { response := { status := 404 }, invokedHandler := none } := by
  simp [dispatcherRun, lookup_tabulate_eq_none (fun t => behaviors t) registeredAuditTypes m.type hm]

/-- C9 witness: the type `dummy` is not registered, so the dispatcher
answers 404 and invokes no handler. -/
theorem dispatcher_unknown_type_404_witness :
    dispatcherRun (registeredAuditTypes.map
        (fun t => (t, fun _ => Except.ok { status := 200 }))) { type := "dummy" } =
      { response := { status := 404 }, invokedHandler := none } :=
  dispatcher_unknown_type_404 (fun _ _ => Except.ok { status := 200 })
    { type := "dummy" } (by decide)

/-- C10 counterexample: a handler rejecting with `statusCode` set to `0`
yields a response with status 500, not the error's statusCode as the
claim (statusCode whenever the field is set) states — the JS `||` treats
`0` as falsy. -/
theorem dispatcher_statusCode_zero_gives_500 :
    dispatcherRun
        [("apex", fun _ => .error { message := "boom", statusCode := some 0 })]
        { type := "apex" } =
      { response := { status := 500, xError := some "internal server error" },
        invokedHandler := some "apex" } ∧
    (500 : Nat) ≠ 0 := ⟨rfl, by decide⟩

/-- C10 amended: the dispatcher never rejects — it is a total function into
outcomes; when the looked-up handler fails with error `e`, the response
status is `e.statusCode` when that field is set and nonzero, and 500 when
it is unset or `0`, with the header `x-error: internal server error`. -/
theorem dispatcher_catches_handler_errors
    (handlers : List (String × (Message → Except JsError WebResponse)))
    (m : Message) (h : Message → Except JsError WebResponse) (e : JsError)
    (hl : handlers.lookup m.type = some h) (he : h m = .error e) :
    dispatcherRun handlers m =
      { response := { status := statusOr500 e.statusCode,
                      xError := some "internal server error" },
        invokedHandler := some m.type } ∧
    (∀ c, e.statusCode = some c → c ≠ 0 → statusOr500 e.statusCode = c) ∧
    (e.statusCode = none ∨ e.statusCode = some 0 → statusOr500 e.statusCode = 500) := by
  refine ⟨by simp [dispatcherRun, hl, he], ?_, ?_⟩
  · intro c hc hc0
    simp [statusOr500, hc, hc0]
  · rintro (hc | hc) <;> simp [statusOr500, hc]

/-- C10 witness: a handler rejecting with statusCode 418 produces the 418
response with the `x-error` header. -/
theorem dispatcher_catches_handler_errors_witness :
    dispatcherRun
        [("cwv", fun _ => .error { message := "boom", statusCode := some 418 })]
        { type := "cwv" } =
      { response := { status := 418, xError := some "internal server error" },
        invokedHandler := some "cwv" } := by
  have h := dispatcher_catches_handler_errors
    [("cwv", fun _ => .error { message := "boom", statusCode := some 418 })]
    { type := "cwv" }
    (fun _ => .error { message := "boom", statusCode := some 418 })
    { message := "boom", statusCode := some 418 } rfl rfl
  exact h.1.trans (by decide)
